import Mathlib

/-!
A shallow embedding of the mapper/field layer of django-nap:
`nap/mapper/fields.py` (descriptor classes `field`, `context_field`,
`Field`, `DigField`) and `nap/meta.py` (`DeclarativeMetaclass`, `Meta`).

Modelling conventions:
* A Python object's attribute store is a total map from attribute names to
  optional values (`Obj α`); `getattr` with a default, `setattr` and
  `hasattr` act on it pointwise.
* The value type `α` is a parameter; the `NOT_PROVIDED` sentinel is just a
  value of `α` that callers may pass as a default.
* Descriptor `__get__` receives `Option (Mapper α)`: `none` models class
  access (`instance is None`), `some m` models instance access.  The result
  type `GetResult` distinguishes returning the descriptor itself, returning
  a value, and the TypeError raised when a missing `fget` is called.
* Descriptor `__set__` mutates the wrapped object; here it returns the
  updated mapper instance.  A silent `return` leaves the state unchanged.
* `raise ValueError(msg)` in a constructor becomes `Except.error msg`.
-/

namespace Nap

/-- The attribute store of a Python object: attribute name to value. -/
def Obj (α : Type) : Type := String → Option α

/-- Python `getattr(o, n, d)`: the attribute's value, or `d` if absent. -/
def getattrD {α : Type} (o : Obj α) (n : String) (d : α) : α :=
  (o n).getD d

/-- Python `setattr(o, n, v)`. -/
def setattr {α : Type} (o : Obj α) (n : String) (v : α) : Obj α :=
  fun k => if k = n then some v else o k

/-- A mapper instance: the wrapped object `_obj` plus the instance's own
other attributes. -/
structure Mapper (α : Type) where
  _obj : Obj α
  attrs : Obj α

/-- Result of a descriptor `__get__`/`__set__` style call: the descriptor
object itself (class access), a value, or a raised TypeError (calling a
missing accessor). -/
inductive GetResult (δ α : Type) where
  | descr : δ → GetResult δ α
  | value : α → GetResult δ α
  | error : GetResult δ α
deriving DecidableEq

/-- The `field(property)` class of `nap/mapper/fields.py`: a property whose
accessors take the wrapped object.  `fget`/`fset` are the property's
accessors (`none` models an undefined accessor); `required`, `default`
and `readonly` are set by `field.__init__` from keyword arguments, with
`default = none` standing for the `NOT_PROVIDED` sentinel. -/
structure field (α : Type) where
  fget : Option (Obj α → α)
  fset : Option (Obj α → α → Obj α)
  required : Bool
  default : Option α
  readonly : Bool

/-- `field.__init__`: `required`, `default` and `readonly` are popped from
the keyword arguments with defaults `False`, `NOT_PROVIDED`, `False`;
an absent keyword is `none`. -/
def field.init {α : Type} (fget : Option (Obj α → α)) (fset : Option (Obj α → α → Obj α))
    (required? : Option Bool) (default? : Option α) (readonly? : Option Bool) : field α :=
  { fget := fget
    fset := fset
    required := required?.getD false
    default := default?
    readonly := readonly?.getD false }

/-- `field.__get__`: class access returns the descriptor itself; instance
access calls `self.fget(instance._obj)` (a TypeError if `fget` is `None`). -/
def field.get {α : Type} (self : field α) (inst : Option (Mapper α)) :
    GetResult (field α) α :=
  match inst with
  | none => .descr self
  | some m =>
    match self.fget with
    | some g => .value (g m._obj)
    | none => .error

/-- `field.__set__`: if `fset` is `None` it silently returns, leaving all
state unchanged; otherwise it calls `self.fset(instance._obj, value)`,
which updates the wrapped object. -/
def field.set {α : Type} (self : field α) (m : Mapper α) (v : α) : Mapper α :=
  match self.fset with
  | none => m
  | some s => { m with _obj := s m._obj v }

/-- The `context_field(field)` class: its accessors additionally receive the
descriptor object itself (`self`).  A Lean structure cannot contain
functions over its own type, so the descriptor reference handed to the
accessors is modelled by a value `self` of a parameter type `δ`. -/
structure context_field (α δ : Type) where
  self : δ
  fget : Option (δ → Obj α → α)
  fset : Option (δ → Obj α → α → Obj α)
  required : Bool
  default : Option α
  readonly : Bool

/-- `context_field.__get__`: class access returns the descriptor itself;
instance access returns `self.fget(self, instance._obj)`. -/
def context_field.get {α δ : Type} (cf : context_field α δ) (inst : Option (Mapper α)) :
    GetResult (context_field α δ) α :=
  match inst with
  | none => .descr cf
  | some m =>
    match cf.fget with
    | some g => .value (g cf.self m._obj)
    | none => .error

/-- `context_field.__set__`: if `fset` is `None` it silently returns;
otherwise it calls `self.fset(self, instance._obj, value)`. -/
def context_field.set {α δ : Type} (cf : context_field α δ) (m : Mapper α) (v : α) :
    Mapper α :=
  match cf.fset with
  | none => m
  | some s => { m with _obj := s cf.self m._obj v }

/-- The `Field(field)` class: a named field with default and
required/readonly flags, stored by `Field.__init__`. -/
structure Field (α : Type) where
  name : String
  default : α
  required : Bool
  readonly : Bool
deriving DecidableEq

/-- `Field.__init__(name, default=NOT_PROVIDED, required=True, readonly=False)`:
stores `name` and `default`, raises
`ValueError("Field can not be both readonly and required.")` when both
flags are set, otherwise stores them. -/
def Field.init {α : Type} (name : String) (default : α)
    (required : Bool) (readonly : Bool) : Except String (Field α) :=
  if readonly && required then
    .error "Field can not be both readonly and required."
  else
    .ok { name := name, default := default, required := required, readonly := readonly }

/-- `Field.__get__`: class access returns the descriptor itself; instance
access returns `getattr(instance._obj, self.name, self.default)`. -/
def Field.get {α : Type} (self : Field α) (inst : Option (Mapper α)) :
    GetResult (Field α) α :=
  match inst with
  | none => .descr self
  | some m => .value (getattrD m._obj self.name self.default)

/-- `Field.__set__`: unconditionally `setattr(instance._obj, self.name, value)`. -/
def Field.set {α : Type} (self : Field α) (m : Mapper α) (v : α) : Mapper α :=
  { m with _obj := setattr m._obj self.name v }

/-- `DigField.__init__`: `kwargs.setdefault('readonly', True)` then
`Field.__init__`, whose `required` keyword defaults to `True`.  The two
optional flag arguments model the keyword arguments: `none` means the
keyword was not passed. -/
def DigField.init {α : Type} (name : String) (default : α)
    (required? : Option Bool) (readonly? : Option Bool) : Except String (Field α) :=
  Field.init name default (required?.getD true) (readonly?.getD true)

/-- `DigField.__get__`: class access returns the descriptor itself; instance
access returns `digattr(instance._obj, self.name, self.default)`.
`digattr` lives in `nap/utils` (outside the mapper sources) and is taken
as a parameter. -/
def DigField.get {α : Type} (digattr : Obj α → String → α → α)
    (self : Field α) (inst : Option (Mapper α)) : GetResult (Field α) α :=
  match inst with
  | none => .descr self
  | some m => .value (digattr m._obj self.name self.default)

/-- Python `key.startswith('_')`: as the prefix is the single character
underscore, this is exactly a test on the key's first character. -/
def startswithUnderscore (k : String) : Bool :=
  k.data.head? == some '_'

/-- `DeclarativeMetaclass.__new__` produces a class carrying the leftover
class-body attributes and the collected `_defaults` mapping. -/
structure DeclClass (β : Type) where
  attrs : String → Option β
  _defaults : String → Option β

/-- `DeclarativeMetaclass.__new__`: every class-body key not starting with
an underscore is popped from `attrs` into the `defaults` dict, which is
stored on the new class as `_defaults`. -/
def DeclarativeMetaclass.new {β : Type} (attrs : String → Option β) : DeclClass β :=
  { attrs := fun k => if startswithUnderscore k then attrs k else none
    _defaults := fun k => if startswithUnderscore k then none else attrs k }

/-- `Meta.__init__(meta)`: for each `key, value` in `self._defaults.items()`,
set instance attribute `key` to `getattr(meta, key, value)`.  The result
is the instance's attribute store (no other attributes are set). -/
def Meta.init {β : Type} (_defaults : String → Option β) (meta : String → Option β) :
    String → Option β :=
  fun k =>
    match _defaults k with
    | some v => some ((meta k).getD v)
    | none => none

/-- Claim C1: `Field.__init__` raises a ValueError when both `readonly` and
`required` are true, so no field with both flags set is ever constructed;
when at most one flag is true it succeeds and stores the given name,
default, required and readonly values. -/
theorem nap_C1 {α : Type} (name : String) (d : α) (required readonly : Bool) :
    (readonly = true → required = true →
      Field.init name d required readonly
        = Except.error "Field can not be both readonly and required.")
    ∧ (¬(readonly = true ∧ required = true) →
      Field.init name d required readonly
        = Except.ok { name := name, default := d, required := required, readonly := readonly })
    ∧ (∀ f : Field α, Field.init name d required readonly = Except.ok f →
        f.name = name ∧ f.default = d ∧ f.required = required ∧ f.readonly = readonly
          ∧ ¬(f.readonly = true ∧ f.required = true)) := by
  unfold Field.init
  cases readonly <;> cases required <;> simp

/-- Witness for C1: both flags set raises; `readonly` alone succeeds. -/
theorem nap_C1_witness :
    Field.init "bar" (1 : Nat) true true
      = Except.error "Field can not be both readonly and required."
    ∧ Field.init "bar" (1 : Nat) false true
      = Except.ok { name := "bar", default := 1, required := false, readonly := true } :=
  ⟨(nap_C1 "bar" 1 true true).1 rfl rfl,
   (nap_C1 "bar" 1 false true).2.1 (by simp)⟩

/-- Claim C2: the class built by `DeclarativeMetaclass.__new__` has
`_defaults` equal to the restriction of the class-body attributes to keys
not starting with an underscore; those keys are removed from the class's
own attributes, while underscore-prefixed keys remain class attributes and
are absent from `_defaults`. -/
theorem nap_C2 {β : Type} (attrs : String → Option β) (k : String) :
    (startswithUnderscore k = false →
      (DeclarativeMetaclass.new attrs)._defaults k = attrs k
      ∧ (DeclarativeMetaclass.new attrs).attrs k = none)
    ∧ (startswithUnderscore k = true →
      (DeclarativeMetaclass.new attrs).attrs k = attrs k
      ∧ (DeclarativeMetaclass.new attrs)._defaults k = none) := by
  unfold DeclarativeMetaclass.new
  constructor <;> intro h <;> simp [h]

/-- Witness for C2 on a two-key class body. -/
theorem nap_C2_witness :
    ((DeclarativeMetaclass.new
        (fun k => if k = "limit" then some (10 : Nat)
          else if k = "_priv" then some 2 else none))._defaults "limit" = some 10
      ∧ (DeclarativeMetaclass.new
        (fun k => if k = "limit" then some (10 : Nat)
          else if k = "_priv" then some 2 else none)).attrs "limit" = none)
    ∧ ((DeclarativeMetaclass.new
        (fun k => if k = "limit" then some (10 : Nat)
          else if k = "_priv" then some 2 else none)).attrs "_priv" = some 2
      ∧ (DeclarativeMetaclass.new
        (fun k => if k = "limit" then some (10 : Nat)
          else if k = "_priv" then some 2 else none))._defaults "_priv" = none) :=
  ⟨(nap_C2 _ "limit").1 (by decide), (nap_C2 _ "_priv").2 (by decide)⟩

/-- Claim C3: reading a `Field` on a mapper instance returns the wrapped
object's attribute named by the field when present, and the field's
default when absent. -/
theorem nap_C3 {α : Type} (f : Field α) (m : Mapper α) :
    (∀ v : α, m._obj f.name = some v → Field.get f (some m) = .value v)
    ∧ (m._obj f.name = none → Field.get f (some m) = .value f.default) := by
  constructor
  · intro v h
    show GetResult.value ((m._obj f.name).getD f.default) = GetResult.value v
    rw [h]; rfl
  · intro h
    show GetResult.value ((m._obj f.name).getD f.default) = GetResult.value f.default
    rw [h]; rfl

/-- Witness for C3: present attribute read back, absent attribute defaulted. -/
theorem nap_C3_witness :
    Field.get { name := "x", default := 7, required := false, readonly := false }
        (some { _obj := fun k => if k = "x" then some (3 : Nat) else none,
                attrs := fun _ => none })
      = .value 3
    ∧ Field.get { name := "y", default := (7 : Nat), required := false, readonly := false }
        (some { _obj := fun k => if k = "x" then some 3 else none,
                attrs := fun _ => none })
      = .value 7 :=
  ⟨(nap_C3 _ _).1 3 (by decide), (nap_C3 _ _).2 (by decide)⟩

/-- Concrete readonly field for the C4 counterexample. -/
def C4field : Field Nat :=
  { name := "bar", default := 0, required := false, readonly := true }

/-- Concrete mapper instance for the C4 counterexample. -/
def C4mapper : Mapper Nat :=
  { _obj := fun k => if k = "bar" then some 1 else none, attrs := fun _ => none }

/-- Counterexample to C4: `C4field` is a constructible readonly field, yet
assigning 5 through it changes the wrapped object's `bar` attribute from 1
to 5 — `Field.__set__` performs no read-only validation. -/
theorem nap_C4_counterexample :
    C4field.readonly = true
    ∧ Field.init "bar" 0 false true = Except.ok C4field
    ∧ C4mapper._obj "bar" = some 1
    ∧ (Field.set C4field C4mapper 5)._obj "bar" = some 5 := by
  refine ⟨rfl, rfl, by decide, by decide⟩

/-- Claim C4 (amended): assigning through a readonly `Field` is not
rejected: `Field.__set__` performs no read-only validation and sets the
wrapped object's attribute named by the field to the assigned value. -/
theorem nap_C4_amended {α : Type} (f : Field α) (_h : f.readonly = true)
    (m : Mapper α) (v : α) :
    (Field.set f m v)._obj f.name = some v := by
  show setattr m._obj f.name v f.name = some v
  unfold setattr
  simp

/-- Witness for the amended C4 on the concrete readonly field. -/
theorem nap_C4_witness :
    (Field.set C4field C4mapper 5)._obj C4field.name = some 5 :=
  nap_C4_amended C4field rfl C4mapper 5

/-- Claim C5: `Meta.__init__` sets, for each key of `_defaults`, the
instance attribute to the settings object's value when present and to the
default otherwise; keys outside `_defaults` are not copied. -/
theorem nap_C5 {β : Type} (_defaults meta : String → Option β) (k : String) :
    (∀ d, _defaults k = some d →
      (∀ v, meta k = some v → Meta.init _defaults meta k = some v)
      ∧ (meta k = none → Meta.init _defaults meta k = some d))
    ∧ (_defaults k = none → Meta.init _defaults meta k = none) := by
  unfold Meta.init
  constructor
  · intro d hd
    constructor
    · intro v hv; rw [hd, hv]; rfl
    · intro hv; rw [hd, hv]; rfl
  · intro h; rw [h]

/-- Witness for C5: override taken from the settings object, default used
when the settings object lacks the key, foreign keys not copied. -/
theorem nap_C5_witness :
    Meta.init (fun k => if k = "limit" then some (10 : Nat) else none)
        (fun k => if k = "limit" then some 99 else none) "limit" = some 99
    ∧ Meta.init (fun k => if k = "limit" then some (10 : Nat) else none)
        (fun _ => none) "limit" = some 10
    ∧ Meta.init (fun k => if k = "limit" then some (10 : Nat) else none)
        (fun k => if k = "extra" then some 5 else none) "extra" = none :=
  ⟨((nap_C5 _ _ "limit").1 10 (by decide)).1 99 (by decide),
   ((nap_C5 _ _ "limit").1 10 (by decide)).2 (by decide),
   (nap_C5 _ _ "extra").2 (by decide)⟩

/-- Claim C6: a `DigField` constructed without explicitly passing
`required=False` or `readonly=False` always raises (its `readonly`
defaults to `True` and `Field.__init__`'s `required` defaults to `True`);
a `DigField` is only constructed by overriding at least one flag. -/
theorem nap_C6 {α : Type} (name : String) (d : α)
    (required? readonly? : Option Bool) :
    (required? ≠ some false → readonly? ≠ some false →
      DigField.init name d required? readonly?
        = Except.error "Field can not be both readonly and required.")
    ∧ (∀ f : Field α, DigField.init name d required? readonly? = Except.ok f →
        required? = some false ∨ readonly? = some false) := by
  unfold DigField.init Field.init
  rcases required? with - | rq <;> rcases readonly? with - | ro <;>
    [skip; cases ro; cases rq; (cases rq <;> cases ro)] <;> simp

/-- Witness for C6: a `DigField` with neither flag passed raises. -/
theorem nap_C6_witness :
    DigField.init "x" (0 : Nat) none none
      = Except.error "Field can not be both readonly and required." :=
  (nap_C6 "x" 0 none none).1 (by simp) (by simp)

/-- Claim C7: assigning a value through a `Field` sets exactly the wrapped
object's attribute named by the field; every other attribute of the
wrapped object and all attributes of the mapper itself are unchanged. -/
theorem nap_C7 {α : Type} (f : Field α) (m : Mapper α) (v : α) :
    (Field.set f m v)._obj f.name = some v
    ∧ (∀ k, k ≠ f.name → (Field.set f m v)._obj k = m._obj k)
    ∧ (Field.set f m v).attrs = m.attrs := by
  refine ⟨?_, ?_, rfl⟩
  · show setattr m._obj f.name v f.name = some v
    unfold setattr; simp
  · intro k hk
    show setattr m._obj f.name v k = m._obj k
    unfold setattr; simp [hk]

/-- Witness for C7: setting `bar` leaves the unrelated `baz` attribute as it
was. -/
theorem nap_C7_witness :
    (Field.set { name := "bar", default := 0, required := true, readonly := false }
        { _obj := fun k => if k = "baz" then some 9 else none,
          attrs := fun _ => none } (5 : Nat))._obj "baz"
      = some 9 :=
  (nap_C7 _ _ 5).2.1 "baz" (by decide)

/-- Claim C8: reading a `field` with getter `g` on a mapper instance returns
`g` applied to the wrapped object, and reading a `context_field` returns
its getter applied to the descriptor itself and the wrapped object. -/
theorem nap_C8 {α δ : Type} (m : Mapper α) :
    (∀ (f : field α) (g : Obj α → α), f.fget = some g →
      field.get f (some m) = .value (g m._obj))
    ∧ (∀ (cf : context_field α δ) (g : δ → Obj α → α), cf.fget = some g →
      context_field.get cf (some m) = .value (g cf.self m._obj)) := by
  constructor
  · intro f g h; unfold field.get; rw [h]
  · intro cf g h; unfold context_field.get; rw [h]

/-- Witness for C8 with a concrete getter reading attribute `x`. -/
theorem nap_C8_witness :
    field.get { fget := some (fun o => (o "x").getD 0), fset := none,
                required := false, default := none, readonly := false }
        (some { _obj := fun k => if k = "x" then some (3 : Nat) else none,
                attrs := fun _ => none })
      = .value 3
    ∧ context_field.get
        { self := (), fget := some (fun _ o => (o "x").getD 0), fset := none,
          required := false, default := none, readonly := false }
        (some { _obj := fun k => if k = "x" then some (3 : Nat) else none,
                attrs := fun _ => none })
      = .value 3 :=
  ⟨(@nap_C8 Nat Unit _).1 _ (fun o => (o "x").getD 0) rfl,
   (@nap_C8 Nat Unit _).2 _ (fun _ o => (o "x").getD 0) rfl⟩

/-- Claim C9: assigning through a `field` or `context_field` whose `fset` is
undefined is a silent no-op: the mapper instance, its wrapped object
included, is returned unchanged and nothing is raised. -/
theorem nap_C9 {α δ : Type} (m : Mapper α) (v : α) :
    (∀ f : field α, f.fset = none → field.set f m v = m)
    ∧ (∀ cf : context_field α δ, cf.fset = none → context_field.set cf m v = m) := by
  constructor
  · intro f h; unfold field.set; rw [h]
  · intro cf h; unfold context_field.set; rw [h]

/-- Witness for C9 on a getter-only field and context_field. -/
theorem nap_C9_witness :
    field.set { fget := some (fun o => (o "x").getD 0), fset := none,
                required := false, default := none, readonly := false }
        { _obj := fun k => if k = "x" then some (3 : Nat) else none,
          attrs := fun _ => none } 5
      = { _obj := fun k => if k = "x" then some (3 : Nat) else none,
          attrs := fun _ => none }
    ∧ context_field.set
        { self := (), fget := none, fset := none,
          required := false, default := none, readonly := false }
        { _obj := fun k => if k = "x" then some (3 : Nat) else none,
          attrs := fun _ => none } 5
      = { _obj := fun k => if k = "x" then some (3 : Nat) else none,
          attrs := fun _ => none } :=
  ⟨(@nap_C9 Nat Unit _ 5).1 _ rfl, (@nap_C9 Nat Unit _ 5).2 _ rfl⟩

/-- Claim C10: accessing any descriptor (`field`, `context_field`, `Field`,
`DigField`) through the class — with instance `None` — returns the
descriptor object itself. -/
theorem nap_C10 {α δ : Type} (f : field α) (cf : context_field α δ) (F : Field α)
    (digattr : Obj α → String → α → α) :
    field.get f none = .descr f
    ∧ context_field.get cf none = .descr cf
    ∧ Field.get F none = .descr F
    ∧ DigField.get digattr F none = .descr F :=
  ⟨rfl, rfl, rfl, rfl⟩

end Nap
